import Mathlib

/-!
Shallow embedding of the language-flashcards server actions
(src/src/actions/index.ts) and table schema (src/db/config.ts).

Modelling conventions:
- The database is a record of four row lists plus auto-increment counters
  (astro:db tables with `autoIncrement` primary keys).
- Timestamps (`Date`) are `Nat`; `new Date()` becomes an explicit `now`
  argument to every handler that reads the clock.
- The JSON `summary` payload (`z.record(z.any())`) is opaque to this layer
  and is modelled as `String`.
- `z.number().int()` fields that the code never constrains to be
  non-negative (displayOrder, intervalDays, counters) are `Int`;
  identifiers are `Nat`.  `easeFactor` (`z.number()`, a float stored
  verbatim and never computed on) is modelled as `Rat`.
- Request context (`context.locals.user`) is `Option String` carrying the
  authenticated user id, matching `requireUser`.
- Zod `.optional()` fields are `Option`; zod `.default(...)` defaults are
  applied where the parse layer applies them, before the handler body uses
  the field.
- Each handler returns `Except Err (DB × output)`.  In the source every
  `throw new ActionError` happens before any insert/update is issued, so an
  error result carries no new state: the store is untouched on failure.
- `db.select().from(T).where(p)` destructured as `[row]` is `List.find?`;
  `db.update(T).set(...).where(eq(T.id, x))` is `List.map` of a function
  that rewrites rows whose id matches `x`.
- JavaScript truthiness: `if (input.id)` / `if (input.sessionId)` on a
  `number | undefined` is true exactly when the value is present and
  nonzero; this is modelled by `truthyId`.
-/

namespace Flashcards

/-- Deck proficiency level enum (`level` column of VocabDecks). -/
inductive Level where
  | A1 | A2 | B1 | B2 | C1 | C2 | mixed
deriving DecidableEq, Repr

/-- Review rating enum (`rating` column of VocabReviews, SM-2 style). -/
inductive Rating where
  | again | hard | good | easy
deriving DecidableEq, Repr

/-- A row of the VocabDecks table. -/
structure Deck where
  id : Nat
  ownerId : String
  title : String
  description : Option String
  fromLanguage : String
  toLanguage : String
  level : Level
  tags : Option String
  isActive : Bool
  createdAt : Nat
  updatedAt : Nat
deriving DecidableEq, Repr

/-- A row of the VocabCards table. -/
structure Card where
  id : Nat
  deckId : Nat
  displayOrder : Int
  term : String
  translation : String
  transliteration : Option String
  partOfSpeech : Option String
  gender : Option String
  exampleSentence : Option String
  exampleTranslation : Option String
  phonetic : Option String
  audioUrl : Option String
  tags : Option String
  isActive : Bool
deriving DecidableEq, Repr

/-- A row of the VocabStudySessions table. -/
structure StudySession where
  id : Nat
  deckId : Nat
  userId : Option String
  startedAt : Nat
  completedAt : Option Nat
  totalCardsSeen : Int
  correctCount : Int
  wrongCount : Int
  summary : Option String
  createdAt : Nat
deriving DecidableEq, Repr

/-- A row of the VocabReviews table. -/
structure Review where
  id : Nat
  deckId : Nat
  cardId : Nat
  userId : Option String
  sessionId : Option Nat
  rating : Rating
  reviewedAt : Nat
  dueAt : Option Nat
  intervalDays : Int
  easeFactor : Option Rat
deriving DecidableEq, Repr

/-- The persistent store: the four tables plus their auto-increment
primary-key counters. -/
structure DB where
  decks : List Deck
  cards : List Card
  sessions : List StudySession
  reviews : List Review
  nextDeckId : Nat
  nextCardId : Nat
  nextSessionId : Nat
  nextReviewId : Nat
deriving DecidableEq, Repr

/-- The error codes raised by the actions (`ActionError.code`), with
`invalidArgument` standing for the zod refinement failure on updateDeck. -/
inductive Err where
  | unauthorized | notFound | forbidden | invalidArgument
deriving DecidableEq, Repr

/-- Spread-if-defined (`...(x !== undefined ? { f: x } : {})`) applied to an
optional column: a supplied value replaces, an omitted value keeps the old. -/
def mergeOpt {α : Type} (new old : Option α) : Option α :=
  match new with
  | some v => some v
  | none => old

/-- JavaScript truthiness of a `number | undefined`: `if (input.id)` is
taken exactly when the value is present and nonzero. -/
def truthyId (x : Option Nat) : Bool :=
  match x with
  | some n => n != 0
  | none => false

/-- `requireUser`: extract the authenticated identity from context or fail
with UNAUTHORIZED. -/
def requireUser (ctx : Option String) : Except Err String :=
  match ctx with
  | none => Except.error Err.unauthorized
  | some u => Except.ok u

/-- `getDeckForUser`: load the deck by id, NOT_FOUND if absent, FORBIDDEN
if its ownerId differs from the caller; otherwise return it (read-only). -/
def getDeckForUser (db : DB) (deckId : Nat) (userId : String) : Except Err Deck :=
  match db.decks.find? (fun d => d.id == deckId) with
  | none => Except.error Err.notFound
  | some deck =>
      if deck.ownerId != userId then Except.error Err.forbidden
      else Except.ok deck

/-- Input of createDeck (post zod shape validation). -/
structure CreateDeckInput where
  title : String
  description : Option String
  fromLanguage : Option String
  toLanguage : Option String
  level : Option Level
  tags : Option String
  isActive : Option Bool
deriving DecidableEq, Repr

/-- createDeck handler. -/
def createDeck (db : DB) (ctx : Option String) (i : CreateDeckInput) (now : Nat) :
    Except Err (DB × Deck) :=
  match requireUser ctx with
  | Except.error e => Except.error e
  | Except.ok user =>
      let deck : Deck :=
        { id := db.nextDeckId
          ownerId := user
          title := i.title
          description := i.description
          fromLanguage := i.fromLanguage.getD "en"
          toLanguage := i.toLanguage.getD "en"
          level := i.level.getD Level.mixed
          tags := i.tags
          isActive := i.isActive.getD true
          createdAt := now
          updatedAt := now }
      Except.ok ({ db with decks := db.decks ++ [deck], nextDeckId := db.nextDeckId + 1 }, deck)

/-- Input of updateDeck (post zod shape validation, before the refine). -/
structure UpdateDeckInput where
  id : Nat
  title : Option String
  description : Option String
  fromLanguage : Option String
  toLanguage : Option String
  level : Option Level
  tags : Option String
  isActive : Option Bool
deriving DecidableEq, Repr

/-- The zod `.refine` predicate on updateDeck: at least one mutable field
must be present. -/
def hasUpdateField (i : UpdateDeckInput) : Bool :=
  i.title.isSome || i.description.isSome || i.fromLanguage.isSome ||
  i.toLanguage.isSome || i.level.isSome || i.tags.isSome || i.isActive.isSome

/-- The `set` object of updateDeck applied to one deck row: supplied fields
replace, omitted fields keep the stored value, updatedAt is always now. -/
def applyDeckUpdate (i : UpdateDeckInput) (now : Nat) (d : Deck) : Deck :=
  { d with
      title := i.title.getD d.title
      description := mergeOpt i.description d.description
      fromLanguage := i.fromLanguage.getD d.fromLanguage
      toLanguage := i.toLanguage.getD d.toLanguage
      level := i.level.getD d.level
      tags := mergeOpt i.tags d.tags
      isActive := i.isActive.getD d.isActive
      updatedAt := now }

/-- updateDeck handler.  The zod refine rejects a no-field request before
the handler (hence before requireUser) runs. -/
def updateDeck (db : DB) (ctx : Option String) (i : UpdateDeckInput) (now : Nat) :
    Except Err (DB × Deck) :=
  if hasUpdateField i then
    match requireUser ctx with
    | Except.error e => Except.error e
    | Except.ok user =>
        match getDeckForUser db i.id user with
        | Except.error e => Except.error e
        | Except.ok deck =>
            let upd := fun (d : Deck) => if d.id == i.id then applyDeckUpdate i now d else d
            Except.ok ({ db with decks := db.decks.map upd }, applyDeckUpdate i now deck)
  else Except.error Err.invalidArgument

/-- listDecks handler.  The whole input object is optional; an absent input
or an absent includeInactive both mean false (zod default). -/
def listDecks (db : DB) (ctx : Option String) (i : Option Bool) :
    Except Err (DB × (List Deck × Nat)) :=
  match requireUser ctx with
  | Except.error e => Except.error e
  | Except.ok user =>
      let includeInactive := i.getD false
      let decks := db.decks.filter (fun d =>
        if includeInactive then d.ownerId == user
        else d.ownerId == user && d.isActive)
      Except.ok (db, (decks, decks.length))

/-- Input of upsertCard (post zod shape validation). -/
structure UpsertCardInput where
  id : Option Nat
  deckId : Nat
  displayOrder : Option Int
  term : String
  translation : String
  transliteration : Option String
  partOfSpeech : Option String
  gender : Option String
  exampleSentence : Option String
  exampleTranslation : Option String
  phonetic : Option String
  audioUrl : Option String
  tags : Option String
  isActive : Option Bool
deriving DecidableEq, Repr

/-- The `set` object of the upsertCard update branch applied to one card
row: displayOrder/isActive fall back to the stored row, every other field
is written verbatim from the input (omitted optional fields become none). -/
def applyCardUpdate (i : UpsertCardInput) (stored : Card) (c : Card) : Card :=
  { c with
      deckId := i.deckId
      displayOrder := i.displayOrder.getD stored.displayOrder
      term := i.term
      translation := i.translation
      transliteration := i.transliteration
      partOfSpeech := i.partOfSpeech
      gender := i.gender
      exampleSentence := i.exampleSentence
      exampleTranslation := i.exampleTranslation
      phonetic := i.phonetic
      audioUrl := i.audioUrl
      tags := i.tags
      isActive := i.isActive.getD stored.isActive }

/-- The row inserted by the upsertCard insert branch. -/
def newCard (i : UpsertCardInput) (cid : Nat) : Card :=
  { id := cid
    deckId := i.deckId
    displayOrder := i.displayOrder.getD 0
    term := i.term
    translation := i.translation
    transliteration := i.transliteration
    partOfSpeech := i.partOfSpeech
    gender := i.gender
    exampleSentence := i.exampleSentence
    exampleTranslation := i.exampleTranslation
    phonetic := i.phonetic
    audioUrl := i.audioUrl
    tags := i.tags
    isActive := i.isActive.getD true }

/-- upsertCard handler.  `if (input.id)` is a JS truthiness test: the
update branch is taken only for a present, nonzero id. -/
def upsertCard (db : DB) (ctx : Option String) (i : UpsertCardInput) :
    Except Err (DB × Card) :=
  match requireUser ctx with
  | Except.error e => Except.error e
  | Except.ok user =>
      match getDeckForUser db i.deckId user with
      | Except.error e => Except.error e
      | Except.ok _ =>
          if truthyId i.id then
            let cid := i.id.getD 0
            match db.cards.find? (fun c => c.id == cid && c.deckId == i.deckId) with
            | none => Except.error Err.notFound
            | some card =>
                let upd := fun (c : Card) => if c.id == cid then applyCardUpdate i card c else c
                Except.ok ({ db with cards := db.cards.map upd }, applyCardUpdate i card card)
          else
            let card := newCard i db.nextCardId
            Except.ok ({ db with cards := db.cards ++ [card], nextCardId := db.nextCardId + 1 }, card)

/-- Input of listCards; includeInactive has zod default false. -/
structure ListCardsInput where
  deckId : Nat
  includeInactive : Bool
deriving DecidableEq, Repr

/-- listCards handler. -/
def listCards (db : DB) (ctx : Option String) (i : ListCardsInput) :
    Except Err (DB × (List Card × Nat)) :=
  match requireUser ctx with
  | Except.error e => Except.error e
  | Except.ok user =>
      match getDeckForUser db i.deckId user with
      | Except.error e => Except.error e
      | Except.ok _ =>
          let cards := db.cards.filter (fun c =>
            if i.includeInactive then c.deckId == i.deckId
            else c.deckId == i.deckId && c.isActive)
          Except.ok (db, (cards, cards.length))

/-- The row inserted by startStudySession: the caller as userId, zeroed
counters, null completedAt/summary, startedAt = createdAt = now. -/
def newSession (deckId : Nat) (user : String) (sid now : Nat) : StudySession :=
  { id := sid
    deckId := deckId
    userId := some user
    startedAt := now
    completedAt := none
    totalCardsSeen := 0
    correctCount := 0
    wrongCount := 0
    summary := none
    createdAt := now }

/-- startStudySession handler: inserts a fresh session for the deck with
the caller as userId, zeroed counters, null completedAt/summary. -/
def startStudySession (db : DB) (ctx : Option String) (deckId : Nat) (now : Nat) :
    Except Err (DB × StudySession) :=
  match requireUser ctx with
  | Except.error e => Except.error e
  | Except.ok user =>
      match getDeckForUser db deckId user with
      | Except.error e => Except.error e
      | Except.ok _ =>
          let session := newSession deckId user db.nextSessionId now
          Except.ok ({ db with sessions := db.sessions ++ [session],
                               nextSessionId := db.nextSessionId + 1 }, session)

/-- Input of completeStudySession (post zod shape validation). -/
structure CompleteSessionInput where
  id : Nat
  totalCardsSeen : Option Int
  correctCount : Option Int
  wrongCount : Option Int
  summary : Option String
  completedAt : Option Nat
deriving DecidableEq, Repr

/-- The `set` object of completeStudySession applied to one session row,
with fallbacks taken from the previously loaded row `stored`. -/
def applySessionComplete (i : CompleteSessionInput) (now : Nat)
    (stored : StudySession) (s : StudySession) : StudySession :=
  { s with
      totalCardsSeen := i.totalCardsSeen.getD stored.totalCardsSeen
      correctCount := i.correctCount.getD stored.correctCount
      wrongCount := i.wrongCount.getD stored.wrongCount
      summary := mergeOpt i.summary stored.summary
      completedAt := some (i.completedAt.getD now) }

/-- completeStudySession handler: the select is scoped to id AND the
caller's userId, so a foreign session is a NOT_FOUND, not a FORBIDDEN. -/
def completeStudySession (db : DB) (ctx : Option String) (i : CompleteSessionInput) (now : Nat) :
    Except Err (DB × StudySession) :=
  match requireUser ctx with
  | Except.error e => Except.error e
  | Except.ok user =>
      match db.sessions.find? (fun s => s.id == i.id && s.userId == some user) with
      | none => Except.error Err.notFound
      | some session =>
          let upd := fun (s : StudySession) =>
            if s.id == i.id then applySessionComplete i now session s else s
          Except.ok ({ db with sessions := db.sessions.map upd },
                     applySessionComplete i now session session)

/-- Input of logReview.  `rating` carries the zod default at the parse
layer, so it reaches the handler as `i.rating.getD Rating.good`. -/
structure LogReviewInput where
  deckId : Nat
  cardId : Nat
  sessionId : Option Nat
  rating : Option Rating
  reviewedAt : Option Nat
  dueAt : Option Nat
  intervalDays : Option Int
  easeFactor : Option Rat
deriving DecidableEq, Repr

/-- The appended review row of logReview. -/
def newReview (i : LogReviewInput) (user : String) (rid now : Nat) : Review :=
  { id := rid
    deckId := i.deckId
    cardId := i.cardId
    userId := some user
    sessionId := i.sessionId
    rating := i.rating.getD Rating.good
    reviewedAt := i.reviewedAt.getD now
    dueAt := i.dueAt
    intervalDays := i.intervalDays.getD 0
    easeFactor := i.easeFactor }

/-- logReview handler.  `if (input.sessionId)` is a JS truthiness test:
the session-ownership check runs only for a present, nonzero sessionId. -/
def logReview (db : DB) (ctx : Option String) (i : LogReviewInput) (now : Nat) :
    Except Err (DB × Review) :=
  match requireUser ctx with
  | Except.error e => Except.error e
  | Except.ok user =>
      match getDeckForUser db i.deckId user with
      | Except.error e => Except.error e
      | Except.ok _ =>
          match db.cards.find? (fun c => c.id == i.cardId && c.deckId == i.deckId) with
          | none => Except.error Err.notFound
          | some _ =>
              let ins : Except Err (DB × Review) :=
                let review := newReview i user db.nextReviewId now
                Except.ok ({ db with reviews := db.reviews ++ [review],
                                     nextReviewId := db.nextReviewId + 1 }, review)
              if truthyId i.sessionId then
                match db.sessions.find? (fun s =>
                    s.id == i.sessionId.getD 0 && s.userId == some user) with
                | none => Except.error Err.forbidden
                | some _ => ins
              else ins

/-- The post-state of an operation result: the new store on success, the
untouched store on error (every throw in the source precedes any write). -/
def runOp {α : Type} (r : Except Err (DB × α)) (db : DB) : DB :=
  match r with
  | Except.ok (db2, _) => db2
  | Except.error _ => db

/-- One inbound call: the whole RPC surface as a single action type. -/
inductive Action where
  | createDeck (i : CreateDeckInput)
  | updateDeck (i : UpdateDeckInput)
  | listDecks (i : Option Bool)
  | upsertCard (i : UpsertCardInput)
  | listCards (i : ListCardsInput)
  | startStudySession (deckId : Nat)
  | completeStudySession (i : CompleteSessionInput)
  | logReview (i : LogReviewInput)
deriving DecidableEq, Repr

/-- The store after dispatching one action. -/
def applyAction (db : DB) (ctx : Option String) (now : Nat) : Action → DB
  | Action.createDeck i => runOp (createDeck db ctx i now) db
  | Action.updateDeck i => runOp (updateDeck db ctx i now) db
  | Action.listDecks i => runOp (listDecks db ctx i) db
  | Action.upsertCard i => runOp (upsertCard db ctx i) db
  | Action.listCards i => runOp (listCards db ctx i) db
  | Action.startStudySession d => runOp (startStudySession db ctx d now) db
  | Action.completeStudySession i => runOp (completeStudySession db ctx i now) db
  | Action.logReview i => runOp (logReview db ctx i now) db

/-! ### Concrete fixtures used by witnesses and counterexamples -/

/-- A deck owned by alice. -/
def deckA : Deck :=
  { id := 1, ownerId := "alice", title := "Travel", description := none,
    fromLanguage := "en", toLanguage := "de", level := Level.mixed,
    tags := none, isActive := true, createdAt := 0, updatedAt := 0 }

/-- A card in alice's deck. -/
def cardA : Card :=
  { id := 1, deckId := 1, displayOrder := 0, term := "book", translation := "Buch",
    transliteration := none, partOfSpeech := none, gender := none,
    exampleSentence := none, exampleTranslation := none, phonetic := none,
    audioUrl := none, tags := none, isActive := true }

/-- A store holding one deck and one card. -/
def db0 : DB :=
  { decks := [deckA], cards := [cardA], sessions := [], reviews := [],
    nextDeckId := 2, nextCardId := 2, nextSessionId := 1, nextReviewId := 1 }

/-! ### Helper lemmas -/

/-- A successful ownership resolution returns a stored deck with the
requested id, owned by the caller. -/
theorem getDeckForUser_ok_inv (db : DB) (k : Nat) (u : String) (d : Deck)
    (h : getDeckForUser db k u = Except.ok d) :
    d ∈ db.decks ∧ d.id = k ∧ d.ownerId = u := by
  unfold getDeckForUser at h
  cases hf : db.decks.find? (fun d0 => d0.id == k) with
  | none => rw [hf] at h; exact absurd h (by simp)
  | some d0 =>
      rw [hf] at h
      by_cases ho : d0.ownerId = u
      · simp [ho] at h
        subst h
        have hm := List.mem_of_find?_eq_some hf
        have hp := List.find?_some hf
        simp at hp
        exact ⟨hm, hp, ho⟩
      · simp [ho] at h

/-! ### Claim theorems -/

/-- C1: the Ownership Resolver fails with NotFound when no deck with the
identifier exists, fails with Forbidden when the deck exists but its
ownerId differs from the caller, and otherwise returns the deck; every
deck-scoped operation (updateDeck, upsertCard, listCards,
startStudySession, logReview) propagates a resolver failure unchanged, and
a failing call leaves the store untouched (errors carry no state). -/
theorem getDeckForUser_resolver_spec (db : DB) (k : Nat) (u : String) :
    (db.decks.find? (fun d => d.id == k) = none →
        getDeckForUser db k u = Except.error Err.notFound)
    ∧ (∀ d, db.decks.find? (fun d0 => d0.id == k) = some d → d.ownerId ≠ u →
        getDeckForUser db k u = Except.error Err.forbidden)
    ∧ (∀ d, db.decks.find? (fun d0 => d0.id == k) = some d → d.ownerId = u →
        getDeckForUser db k u = Except.ok d)
    ∧ (∀ e, getDeckForUser db k u = Except.error e →
        (∀ i now, i.id = k → hasUpdateField i = true →
            updateDeck db (some u) i now = Except.error e)
        ∧ (∀ i, i.deckId = k → upsertCard db (some u) i = Except.error e)
        ∧ (∀ i, i.deckId = k → listCards db (some u) i = Except.error e)
        ∧ (∀ now, startStudySession db (some u) k now = Except.error e)
        ∧ (∀ i now, i.deckId = k → logReview db (some u) i now = Except.error e)) := by
  refine ⟨?_, ?_, ?_, ?_⟩
  · intro h
    simp [getDeckForUser, h]
  · intro d hf hne
    simp [getDeckForUser, hf, hne]
  · intro d hf ho
    simp [getDeckForUser, hf, ho]
  · intro e he
    refine ⟨?_, ?_, ?_, ?_, ?_⟩
    · intro i now hk hupd
      simp [updateDeck, hupd, requireUser, hk, he]
    · intro i hk
      simp [upsertCard, requireUser, hk, he]
    · intro i hk
      simp [listCards, requireUser, hk, he]
    · intro now
      simp [startStudySession, requireUser, he]
    · intro i now hk
      simp [logReview, requireUser, hk, he]

/-- Witness for C1: on the concrete store, a missing deck id yields
NotFound, a foreign caller yields Forbidden, and the owner gets the deck. -/
theorem getDeckForUser_resolver_spec_witness :
    getDeckForUser db0 99 "alice" = Except.error Err.notFound
    ∧ getDeckForUser db0 1 "bob" = Except.error Err.forbidden
    ∧ getDeckForUser db0 1 "alice" = Except.ok deckA :=
  ⟨(getDeckForUser_resolver_spec db0 99 "alice").1 (by decide),
   (getDeckForUser_resolver_spec db0 1 "bob").2.1 deckA (by decide) (by decide),
   (getDeckForUser_resolver_spec db0 1 "alice").2.2.1 deckA (by decide) rfl⟩

/-- C6: an updateDeck request with none of the seven mutable fields
present fails with InvalidArgument for every context (even an
unauthenticated one, so before any authorization check) and every id, and
the store is untouched. -/
theorem updateDeck_requires_some_field (db : DB) (ctx : Option String)
    (i : UpdateDeckInput) (now : Nat) (h : hasUpdateField i = false) :
    updateDeck db ctx i now = Except.error Err.invalidArgument
    ∧ runOp (updateDeck db ctx i now) db = db := by
  have h1 : updateDeck db ctx i now = Except.error Err.invalidArgument := by
    simp [updateDeck, h]
  exact ⟨h1, by rw [h1]; rfl⟩

/-- An updateDeck input with every mutable field omitted and a dangling id. -/
def updNoFields : UpdateDeckInput :=
  { id := 999, title := none, description := none, fromLanguage := none,
    toLanguage := none, level := none, tags := none, isActive := none }

/-- Witness for C6: with no identity in context and a nonexistent id, the
no-field update still fails with InvalidArgument and changes nothing. -/
theorem updateDeck_requires_some_field_witness :
    updateDeck db0 none updNoFields 5 = Except.error Err.invalidArgument
    ∧ runOp (updateDeck db0 none updNoFields 5) db0 = db0 :=
  updateDeck_requires_some_field db0 none updNoFields 5 (by decide)

/-- An inactive deck owned by alice. -/
def deckB : Deck :=
  { id := 2, ownerId := "alice", title := "Archive", description := none,
    fromLanguage := "en", toLanguage := "de", level := Level.A1,
    tags := none, isActive := false, createdAt := 0, updatedAt := 0 }

/-- A deck owned by bob. -/
def deckC : Deck :=
  { id := 3, ownerId := "bob", title := "Bob Deck", description := none,
    fromLanguage := "en", toLanguage := "fr", level := Level.B1,
    tags := none, isActive := true, createdAt := 0, updatedAt := 0 }

/-- A store with an active and an inactive deck of alice and a deck of bob. -/
def db1 : DB :=
  { decks := [deckA, deckB, deckC], cards := [cardA], sessions := [], reviews := [],
    nextDeckId := 4, nextCardId := 2, nextSessionId := 1, nextReviewId := 1 }

/-- C8: a successful listDecks returns exactly the caller's decks — all of
them when includeInactive is true, only the active ones when it is false
or the input is absent — leaves the store unchanged, and reports a total
equal to the number of returned items. -/
theorem listDecks_spec (db : DB) (u : String) (inp : Option Bool)
    (db2 : DB) (items : List Deck) (n : Nat)
    (h : listDecks db (some u) inp = Except.ok (db2, (items, n))) :
    db2 = db ∧ n = items.length ∧
    ∀ d, d ∈ items ↔
      d ∈ db.decks ∧ d.ownerId = u ∧ (inp.getD false = true ∨ d.isActive = true) := by
  simp only [listDecks, requireUser, Except.ok.injEq, Prod.mk.injEq] at h
  obtain ⟨hdb, hitems, hn⟩ := h
  subst hdb
  subst hitems
  subst hn
  refine ⟨rfl, rfl, ?_⟩
  intro d
  rw [List.mem_filter]
  cases hb : inp.getD false with
  | false => simp [hb]
  | true => simp [hb]

/-- Witness for C8: on the three-deck store, alice's default listing
returns exactly her active deck. -/
theorem listDecks_spec_witness :
    db1 = db1 ∧ (1 : Nat) = [deckA].length ∧
    ∀ d, d ∈ [deckA] ↔
      d ∈ db1.decks ∧ d.ownerId = "alice" ∧
        ((none : Option Bool).getD false = true ∨ d.isActive = true) :=
  listDecks_spec db1 "alice" none db1 [deckA] 1 rfl

/-- The spec-shaped postcondition of a successful updateDeck: some stored
deck has the requested id and the caller as owner; in the returned deck
each supplied field is overwritten and each omitted field retained;
ownerId, createdAt and id are retained; updatedAt is now; the other three
tables are untouched and every other deck row survives unchanged. -/
def UpdateDeckPost (db : DB) (u : String) (i : UpdateDeckInput) (now : Nat)
    (db2 : DB) (d2 : Deck) : Prop :=
  ∃ old, old ∈ db.decks ∧ old.id = i.id ∧ old.ownerId = u ∧
    d2.id = old.id ∧ d2.ownerId = old.ownerId ∧ d2.createdAt = old.createdAt ∧
    d2.updatedAt = now ∧
    (∀ v, i.title = some v → d2.title = v) ∧
    (i.title = none → d2.title = old.title) ∧
    (∀ v, i.description = some v → d2.description = some v) ∧
    (i.description = none → d2.description = old.description) ∧
    (∀ v, i.fromLanguage = some v → d2.fromLanguage = v) ∧
    (i.fromLanguage = none → d2.fromLanguage = old.fromLanguage) ∧
    (∀ v, i.toLanguage = some v → d2.toLanguage = v) ∧
    (i.toLanguage = none → d2.toLanguage = old.toLanguage) ∧
    (∀ v, i.level = some v → d2.level = v) ∧
    (i.level = none → d2.level = old.level) ∧
    (∀ v, i.tags = some v → d2.tags = some v) ∧
    (i.tags = none → d2.tags = old.tags) ∧
    (∀ v, i.isActive = some v → d2.isActive = v) ∧
    (i.isActive = none → d2.isActive = old.isActive) ∧
    db2.cards = db.cards ∧ db2.sessions = db.sessions ∧ db2.reviews = db.reviews ∧
    (∀ d, d ∈ db.decks → d.id ≠ i.id → d ∈ db2.decks)

/-- C5: every successful updateDeck call overwrites exactly the supplied
fields on the targeted deck, retains every omitted field as well as
ownerId (which the request cannot carry) and createdAt, always refreshes
updatedAt to now, and touches no other row or table. -/
theorem updateDeck_field_semantics (db : DB) (u : String) (i : UpdateDeckInput)
    (now : Nat) (db2 : DB) (d2 : Deck)
    (h : updateDeck db (some u) i now = Except.ok (db2, d2)) :
    UpdateDeckPost db u i now db2 d2 := by
  unfold updateDeck at h
  cases hu : hasUpdateField i with
  | false => rw [hu] at h; simp at h
  | true =>
      rw [hu] at h
      simp only [requireUser, if_true] at h
      cases hg : getDeckForUser db i.id u with
      | error e => rw [hg] at h; simp at h
      | ok deck =>
          rw [hg] at h
          simp only [Except.ok.injEq, Prod.mk.injEq] at h
          obtain ⟨hdb, hd⟩ := h
          obtain ⟨hmem, hid, how⟩ := getDeckForUser_ok_inv db i.id u deck hg
          subst hdb
          subst hd
          refine ⟨deck, hmem, hid, how, rfl, rfl, rfl, rfl, ?_⟩
          refine ⟨fun v hv => by simp [applyDeckUpdate, hv], fun hv => by simp [applyDeckUpdate, hv], ?_⟩
          refine ⟨fun v hv => by simp [applyDeckUpdate, mergeOpt, hv],
                  fun hv => by simp [applyDeckUpdate, mergeOpt, hv], ?_⟩
          refine ⟨fun v hv => by simp [applyDeckUpdate, hv], fun hv => by simp [applyDeckUpdate, hv], ?_⟩
          refine ⟨fun v hv => by simp [applyDeckUpdate, hv], fun hv => by simp [applyDeckUpdate, hv], ?_⟩
          refine ⟨fun v hv => by simp [applyDeckUpdate, hv], fun hv => by simp [applyDeckUpdate, hv], ?_⟩
          refine ⟨fun v hv => by simp [applyDeckUpdate, mergeOpt, hv],
                  fun hv => by simp [applyDeckUpdate, mergeOpt, hv], ?_⟩
          refine ⟨fun v hv => by simp [applyDeckUpdate, hv], fun hv => by simp [applyDeckUpdate, hv], ?_⟩
          refine ⟨rfl, rfl, rfl, ?_⟩
          intro d hd hne
          refine List.mem_map.mpr ⟨d, hd, ?_⟩
          simp [hne]

/-- An updateDeck input touching title and tags only. -/
def updW : UpdateDeckInput :=
  { id := 1, title := some "New Title", description := none, fromLanguage := none,
    toLanguage := none, level := none, tags := some "travel", isActive := none }

/-- The deck row expected after applying updW at time 7. -/
def deckAUpd : Deck :=
  { deckA with title := "New Title", tags := some "travel", updatedAt := 7 }

/-- The store expected after applying updW at time 7. -/
def db0Upd : DB := { db0 with decks := [deckAUpd] }

/-- Witness for C5: a concrete successful update of alice's deck satisfies
the field-semantics postcondition. -/
theorem updateDeck_field_semantics_witness :
    UpdateDeckPost db0 "alice" updW 7 db0Upd deckAUpd :=
  updateDeck_field_semantics db0 "alice" updW 7 db0Upd deckAUpd rfl

/-- The spec-shaped postcondition on the card returned by a successful
update-by-id upsert: displayOrder/isActive fall back to the stored row
when omitted, term/translation take the supplied values, and every other
descriptive field is written verbatim from the request — none when
omitted, i.e. cleared rather than retained. -/
def UpsertCardUpdatePost (db : DB) (i : UpsertCardInput) (c2 : Card) : Prop :=
  ∃ old, old ∈ db.cards ∧ some old.id = i.id ∧ old.deckId = i.deckId ∧
    c2.id = old.id ∧ c2.deckId = i.deckId ∧
    c2.term = i.term ∧ c2.translation = i.translation ∧
    (∀ v, i.displayOrder = some v → c2.displayOrder = v) ∧
    (i.displayOrder = none → c2.displayOrder = old.displayOrder) ∧
    (∀ v, i.isActive = some v → c2.isActive = v) ∧
    (i.isActive = none → c2.isActive = old.isActive) ∧
    c2.transliteration = i.transliteration ∧
    c2.partOfSpeech = i.partOfSpeech ∧
    c2.gender = i.gender ∧
    c2.exampleSentence = i.exampleSentence ∧
    c2.exampleTranslation = i.exampleTranslation ∧
    c2.phonetic = i.phonetic ∧
    c2.audioUrl = i.audioUrl ∧
    c2.tags = i.tags

/-- C4: every successful upsertCard call with a supplied (nonzero) id
satisfies the update postcondition: stored fallbacks for
displayOrder/isActive only, verbatim overwrite (including clearing to
none) for all other optional descriptive fields. -/
theorem upsertCard_update_semantics (db : DB) (u : String) (i : UpsertCardInput)
    (cid : Nat) (db2 : DB) (c2 : Card)
    (hid : i.id = some cid) (hnz : cid ≠ 0)
    (h : upsertCard db (some u) i = Except.ok (db2, c2)) :
    UpsertCardUpdatePost db i c2 := by
  unfold upsertCard at h
  simp only [requireUser] at h
  cases hg : getDeckForUser db i.deckId u with
  | error e => rw [hg] at h; simp at h
  | ok deck =>
      rw [hg] at h
      have ht : truthyId i.id = true := by simp [truthyId, hid, hnz]
      rw [ht] at h
      simp only [if_true] at h
      have hgd : i.id.getD 0 = cid := by rw [hid]; rfl
      rw [hgd] at h
      cases hf : db.cards.find? (fun c => c.id == cid && c.deckId == i.deckId) with
      | none => rw [hf] at h; simp at h
      | some card =>
          rw [hf] at h
          simp only [Except.ok.injEq, Prod.mk.injEq] at h
          obtain ⟨hdb, hc⟩ := h
          subst hc
          have hmem := List.mem_of_find?_eq_some hf
          have hp := List.find?_some hf
          simp only [Bool.and_eq_true, beq_iff_eq] at hp
          refine ⟨card, hmem, ?_, hp.2, rfl, rfl, rfl, rfl, ?_⟩
          · rw [hid, hp.1]
          refine ⟨fun v hv => by simp [applyCardUpdate, hv],
                  fun hv => by simp [applyCardUpdate, hv], ?_⟩
          refine ⟨fun v hv => by simp [applyCardUpdate, hv],
                  fun hv => by simp [applyCardUpdate, hv], ?_⟩
          exact ⟨rfl, rfl, rfl, rfl, rfl, rfl, rfl, rfl⟩

/-- A card in alice's deck carrying descriptive values that an omitting
update would clear. -/
def cardB : Card :=
  { id := 2, deckId := 1, displayOrder := 4, term := "house", translation := "Haus",
    transliteration := some "haus", partOfSpeech := some "noun", gender := some "n",
    exampleSentence := some "Das Haus ist alt.", exampleTranslation := some "The house is old.",
    phonetic := some "haʊs", audioUrl := none, tags := some "home", isActive := true }

/-- A store with two cards in alice's deck. -/
def db2c : DB := { db0 with cards := [cardA, cardB] }

/-- An update-by-id upsert of cardB omitting every optional field. -/
def upsW : UpsertCardInput :=
  { id := some 2, deckId := 1, displayOrder := none, term := "home", translation := "Heim",
    transliteration := none, partOfSpeech := none, gender := none,
    exampleSentence := none, exampleTranslation := none, phonetic := none,
    audioUrl := none, tags := none, isActive := none }

/-- The card expected after applying upsW: descriptive fields cleared,
displayOrder/isActive retained. -/
def cardBUpd : Card :=
  { cardB with
      term := "home", translation := "Heim", transliteration := none,
      partOfSpeech := none, gender := none, exampleSentence := none,
      exampleTranslation := none, phonetic := none, audioUrl := none, tags := none }

/-- Witness for C4: the omitting update of cardB satisfies the
postcondition (its descriptive fields are cleared, not retained). -/
theorem upsertCard_update_semantics_witness :
    UpsertCardUpdatePost db2c upsW cardBUpd :=
  upsertCard_update_semantics db2c "alice" upsW 2
    { db2c with cards := [cardA, cardBUpd] } cardBUpd rfl (by decide) rfl

/-- The spec-shaped postcondition of a successful completeStudySession:
the stored session is owned by the caller under the requested id; each of
the counters and summary retains the stored value when omitted and takes
the supplied value when present; completedAt becomes the supplied value,
or now when omitted; identity fields are unchanged. -/
def CompleteSessionPost (db : DB) (u : String) (i : CompleteSessionInput) (now : Nat)
    (s2 : StudySession) : Prop :=
  ∃ old, old ∈ db.sessions ∧ old.id = i.id ∧ old.userId = some u ∧
    s2.id = old.id ∧ s2.deckId = old.deckId ∧ s2.userId = old.userId ∧
    s2.startedAt = old.startedAt ∧ s2.createdAt = old.createdAt ∧
    (∀ v, i.totalCardsSeen = some v → s2.totalCardsSeen = v) ∧
    (i.totalCardsSeen = none → s2.totalCardsSeen = old.totalCardsSeen) ∧
    (∀ v, i.correctCount = some v → s2.correctCount = v) ∧
    (i.correctCount = none → s2.correctCount = old.correctCount) ∧
    (∀ v, i.wrongCount = some v → s2.wrongCount = v) ∧
    (i.wrongCount = none → s2.wrongCount = old.wrongCount) ∧
    (∀ v, i.summary = some v → s2.summary = some v) ∧
    (i.summary = none → s2.summary = old.summary) ∧
    (∀ v, i.completedAt = some v → s2.completedAt = some v) ∧
    (i.completedAt = none → s2.completedAt = some now)

/-- C7: completeStudySession fails with NotFound when no session matches
both the id and the caller's userId (so a foreign session is NotFound,
not Forbidden); on success counters and summary retain stored values when
omitted and completedAt is the supplied value or now. -/
theorem completeStudySession_spec (db : DB) (u : String) (i : CompleteSessionInput)
    (now : Nat) :
    (db.sessions.find? (fun s => s.id == i.id && s.userId == some u) = none →
        completeStudySession db (some u) i now = Except.error Err.notFound)
    ∧ (∀ db2 s2, completeStudySession db (some u) i now = Except.ok (db2, s2) →
        CompleteSessionPost db u i now s2) := by
  constructor
  · intro hf
    simp [completeStudySession, requireUser, hf]
  · intro db2 s2 h
    unfold completeStudySession at h
    simp only [requireUser] at h
    cases hf : db.sessions.find? (fun s => s.id == i.id && s.userId == some u) with
    | none => rw [hf] at h; simp at h
    | some session =>
        rw [hf] at h
        simp only [Except.ok.injEq, Prod.mk.injEq] at h
        obtain ⟨hdb, hs⟩ := h
        subst hs
        have hmem := List.mem_of_find?_eq_some hf
        have hp := List.find?_some hf
        simp only [Bool.and_eq_true, beq_iff_eq] at hp
        refine ⟨session, hmem, hp.1, hp.2, rfl, rfl, rfl, rfl, rfl, ?_⟩
        refine ⟨fun v hv => by simp [applySessionComplete, hv],
                fun hv => by simp [applySessionComplete, hv], ?_⟩
        refine ⟨fun v hv => by simp [applySessionComplete, hv],
                fun hv => by simp [applySessionComplete, hv], ?_⟩
        refine ⟨fun v hv => by simp [applySessionComplete, hv],
                fun hv => by simp [applySessionComplete, hv], ?_⟩
        refine ⟨fun v hv => by simp [applySessionComplete, mergeOpt, hv],
                fun hv => by simp [applySessionComplete, mergeOpt, hv], ?_⟩
        exact ⟨fun v hv => by simp [applySessionComplete, hv],
               fun hv => by simp [applySessionComplete, hv]⟩

/-- A session of alice on her deck, not yet completed. -/
def sessA : StudySession :=
  { id := 1, deckId := 1, userId := some "alice", startedAt := 0, completedAt := none,
    totalCardsSeen := 0, correctCount := 0, wrongCount := 0, summary := none, createdAt := 0 }

/-- A store holding alice's open session. -/
def dbS : DB := { db0 with sessions := [sessA] }

/-- A completion request supplying only correctCount. -/
def cinpW : CompleteSessionInput :=
  { id := 1, totalCardsSeen := none, correctCount := some 3, wrongCount := none,
    summary := none, completedAt := none }

/-- Witness for C7: bob gets NotFound on alice's session, and alice's own
completion satisfies the postcondition. -/
theorem completeStudySession_spec_witness :
    completeStudySession dbS (some "bob") cinpW 10 = Except.error Err.notFound
    ∧ CompleteSessionPost dbS "alice" cinpW 10
        { sessA with correctCount := 3, completedAt := some 10 } :=
  ⟨(completeStudySession_spec dbS "bob" cinpW 10).1 (by decide),
   (completeStudySession_spec dbS "alice" cinpW 10).2
     { dbS with sessions := [{ sessA with correctCount := 3, completedAt := some 10 }] }
     { sessA with correctCount := 3, completedAt := some 10 } rfl⟩

/-- An upsert request supplying id 0 for a deck that has no card 0. -/
def upsZero : UpsertCardInput :=
  { id := some 0, deckId := 1, displayOrder := none, term := "zero", translation := "Null",
    transliteration := none, partOfSpeech := none, gender := none,
    exampleSentence := none, exampleTranslation := none, phonetic := none,
    audioUrl := none, tags := none, isActive := none }

/-- Counterexample to C3 as stated: id 0 is supplied and no card with id 0
exists in deck 1, yet the call does not fail with NotFound — the JS
truthiness test `if (input.id)` routes id 0 to the insert branch and a new
card row is created. -/
theorem upsertCard_zero_id_cex :
    db0.cards.find? (fun c => c.id == 0 && c.deckId == 1) = none
    ∧ upsertCard db0 (some "alice") upsZero
        = Except.ok ({ db0 with cards := [cardA, newCard upsZero 2], nextCardId := 3 },
                     newCard upsZero 2) :=
  ⟨rfl, rfl⟩

/-- C3 (amended): for a supplied NONZERO id with no matching card in the
deck (in particular a card id of a different deck), upsertCard fails with
NotFound and the store is untouched; a supplied id of 0 is treated as
absent by the JS truthiness test and takes the insert branch. -/
theorem upsertCard_missing_id_not_found (db : DB) (u : String) (i : UpsertCardInput)
    (cid : Nat) (d : Deck)
    (hid : i.id = some cid) (hnz : cid ≠ 0)
    (hdeck : getDeckForUser db i.deckId u = Except.ok d)
    (hfind : db.cards.find? (fun c => c.id == cid && c.deckId == i.deckId) = none) :
    upsertCard db (some u) i = Except.error Err.notFound
    ∧ runOp (upsertCard db (some u) i) db = db := by
  have ht : truthyId i.id = true := by simp [truthyId, hid, hnz]
  have hgd : i.id.getD 0 = cid := by rw [hid]; rfl
  have h1 : upsertCard db (some u) i = Except.error Err.notFound := by
    simp [upsertCard, requireUser, hdeck, ht, hgd, hfind]
  exact ⟨h1, by rw [h1]; rfl⟩

/-- A card that lives in bob's deck 3. -/
def cardC : Card :=
  { id := 7, deckId := 3, displayOrder := 0, term := "eau", translation := "water",
    transliteration := none, partOfSpeech := none, gender := none,
    exampleSentence := none, exampleTranslation := none, phonetic := none,
    audioUrl := none, tags := none, isActive := true }

/-- The three-deck store with a card in alice's deck and one in bob's. -/
def db1c : DB := { db1 with cards := [cardA, cardC] }

/-- An upsert against alice's deck 1 reusing the id of bob's card 7. -/
def upsCross : UpsertCardInput :=
  { id := some 7, deckId := 1, displayOrder := none, term := "eau", translation := "Wasser",
    transliteration := none, partOfSpeech := none, gender := none,
    exampleSentence := none, exampleTranslation := none, phonetic := none,
    audioUrl := none, tags := none, isActive := none }

/-- Witness for C3 (amended): reusing a card id that belongs to a
different deck fails with NotFound and changes nothing. -/
theorem upsertCard_missing_id_not_found_witness :
    upsertCard db1c (some "alice") upsCross = Except.error Err.notFound
    ∧ runOp (upsertCard db1c (some "alice") upsCross) db1c = db1c :=
  upsertCard_missing_id_not_found db1c "alice" upsCross 7 deckA rfl (by decide) rfl rfl

/-- A review request supplying sessionId 0 with nothing else optional. -/
def logZero : LogReviewInput :=
  { deckId := 1, cardId := 1, sessionId := some 0, rating := none, reviewedAt := none,
    dueAt := none, intervalDays := none, easeFactor := none }

/-- Counterexample to C2 as stated: sessionId 0 is supplied and no
StudySession with id 0 owned by alice exists, yet the call does not fail
with Forbidden — the JS truthiness test `if (input.sessionId)` skips the
session check for 0 and the review row is inserted with sessionId 0. -/
theorem logReview_zero_session_cex :
    db0.sessions.find? (fun s => s.id == 0 && s.userId == some "alice") = none
    ∧ logReview db0 (some "alice") logZero 5
        = Except.ok ({ db0 with reviews := [newReview logZero "alice" 1 5], nextReviewId := 2 },
                     newReview logZero "alice" 1 5)
    ∧ (newReview logZero "alice" 1 5).sessionId = some 0 :=
  ⟨rfl, rfl, rfl⟩

/-- The spec-shaped postcondition of a successful logReview: exactly one
review row is appended, no other table is touched, and the row carries
the supplied deckId/cardId, the caller as userId, the sessionId verbatim,
rating defaulting to good, reviewedAt defaulting to now, intervalDays
defaulting to 0, and dueAt/easeFactor verbatim. -/
def LogReviewPost (db : DB) (u : String) (i : LogReviewInput) (now : Nat)
    (db2 : DB) (r : Review) : Prop :=
  db2.reviews = db.reviews ++ [r] ∧ db2.decks = db.decks ∧ db2.cards = db.cards ∧
  db2.sessions = db.sessions ∧
  r.deckId = i.deckId ∧ r.cardId = i.cardId ∧ r.userId = some u ∧
  r.sessionId = i.sessionId ∧
  (∀ v, i.rating = some v → r.rating = v) ∧
  (i.rating = none → r.rating = Rating.good) ∧
  (∀ v, i.reviewedAt = some v → r.reviewedAt = v) ∧
  (i.reviewedAt = none → r.reviewedAt = now) ∧
  r.dueAt = i.dueAt ∧
  (∀ v, i.intervalDays = some v → r.intervalDays = v) ∧
  (i.intervalDays = none → r.intervalDays = 0) ∧
  r.easeFactor = i.easeFactor

/-- C2 (amended): once the deck check passes, logReview fails with
NotFound when the card does not exist in the supplied deck; for a NONZERO
supplied sessionId it fails with Forbidden unless a session with that id
and the caller's userId exists (a sessionId of 0 skips the check by JS
truthiness); otherwise it appends exactly one review row with rating
defaulting to good, reviewedAt defaulting to now, intervalDays defaulting
to 0, and dueAt/easeFactor/sessionId stored verbatim. -/
theorem logReview_spec (db : DB) (u : String) (i : LogReviewInput) (now : Nat)
    (d : Deck) (hdeck : getDeckForUser db i.deckId u = Except.ok d) :
    (db.cards.find? (fun c => c.id == i.cardId && c.deckId == i.deckId) = none →
        logReview db (some u) i now = Except.error Err.notFound)
    ∧ (∀ sid, i.sessionId = some sid → sid ≠ 0 →
        db.sessions.find? (fun s => s.id == sid && s.userId == some u) = none →
        (∀ c, db.cards.find? (fun c0 => c0.id == i.cardId && c0.deckId == i.deckId) = some c →
          logReview db (some u) i now = Except.error Err.forbidden))
    ∧ (∀ db2 r, logReview db (some u) i now = Except.ok (db2, r) →
        LogReviewPost db u i now db2 r) := by
  refine ⟨?_, ?_, ?_⟩
  · intro hf
    simp [logReview, requireUser, hdeck, hf]
  · intro sid hsid hnz hsess c hc
    have ht : truthyId i.sessionId = true := by simp [truthyId, hsid, hnz]
    have hgd : i.sessionId.getD 0 = sid := by rw [hsid]; rfl
    simp [logReview, requireUser, hdeck, hc, ht, hgd, hsess]
  · intro db2 r h
    unfold logReview at h
    simp only [requireUser] at h
    rw [hdeck] at h
    cases hc : db.cards.find? (fun c0 => c0.id == i.cardId && c0.deckId == i.deckId) with
    | none => rw [hc] at h; simp at h
    | some c =>
        rw [hc] at h
        have hins : (Except.ok ({ db with reviews := db.reviews ++ [newReview i u db.nextReviewId now],
                                          nextReviewId := db.nextReviewId + 1 },
                                newReview i u db.nextReviewId now) : Except Err (DB × Review))
              = Except.ok (db2, r) →
            LogReviewPost db u i now db2 r := by
          intro he
          simp only [Except.ok.injEq, Prod.mk.injEq] at he
          obtain ⟨hdb, hr⟩ := he
          subst hr
          subst hdb
          refine ⟨rfl, rfl, rfl, rfl, rfl, rfl, rfl, rfl, ?_⟩
          refine ⟨fun v hv => by simp [newReview, hv], fun hv => by simp [newReview, hv], ?_⟩
          refine ⟨fun v hv => by simp [newReview, hv], fun hv => by simp [newReview, hv], ?_⟩
          exact ⟨rfl, fun v hv => by simp [newReview, hv], fun hv => by simp [newReview, hv], rfl⟩
        cases ht : truthyId i.sessionId with
        | false =>
            rw [ht] at h
            simp only [Bool.false_eq_true, if_false] at h
            exact hins h
        | true =>
            rw [ht] at h
            simp only [if_true] at h
            cases hs : db.sessions.find? (fun s =>
                s.id == i.sessionId.getD 0 && s.userId == some u) with
            | none => rw [hs] at h; simp at h
            | some s0 => rw [hs] at h; exact hins h

/-- A store with alice's deck, card, and open session. -/
def dbSC : DB := { db0 with sessions := [sessA] }

/-- A review request tied to alice's session 1 with explicit rating. -/
def logOk : LogReviewInput :=
  { deckId := 1, cardId := 1, sessionId := some 1, rating := some Rating.easy,
    reviewedAt := none, dueAt := some 99, intervalDays := none, easeFactor := none }

/-- A review request naming a session id that exists for nobody. -/
def logBadSess : LogReviewInput :=
  { deckId := 1, cardId := 1, sessionId := some 8, rating := none, reviewedAt := none,
    dueAt := none, intervalDays := none, easeFactor := none }

/-- A review request naming a card absent from the deck. -/
def logBadCard : LogReviewInput :=
  { deckId := 1, cardId := 42, sessionId := none, rating := none, reviewedAt := none,
    dueAt := none, intervalDays := none, easeFactor := none }

/-- Witness for C2 (amended): missing card gives NotFound, unknown
nonzero session gives Forbidden, and a good request appends one verbatim
review row. -/
theorem logReview_spec_witness :
    logReview dbSC (some "alice") logBadCard 5 = Except.error Err.notFound
    ∧ logReview dbSC (some "alice") logBadSess 5 = Except.error Err.forbidden
    ∧ LogReviewPost dbSC "alice" logOk 5
        ({ dbSC with reviews := [newReview logOk "alice" 1 5], nextReviewId := 2 })
        (newReview logOk "alice" 1 5) :=
  ⟨(logReview_spec dbSC "alice" logBadCard 5 deckA rfl).1 rfl,
   (logReview_spec dbSC "alice" logBadSess 5 deckA rfl).2.1 8 rfl (by decide) rfl cardA rfl,
   (logReview_spec dbSC "alice" logOk 5 deckA rfl).2.2
     ({ dbSC with reviews := [newReview logOk "alice" 1 5], nextReviewId := 2 })
     (newReview logOk "alice" 1 5) rfl⟩

/-! ### Frame lemmas: which operations can touch the sessions table -/

/-- createDeck never touches the sessions table. -/
theorem createDeck_keeps_sessions (db : DB) (ctx : Option String)
    (i : CreateDeckInput) (now : Nat) :
    (runOp (createDeck db ctx i now) db).sessions = db.sessions := by
  cases ctx <;> rfl

/-- updateDeck never touches the sessions table. -/
theorem updateDeck_keeps_sessions (db : DB) (ctx : Option String)
    (i : UpdateDeckInput) (now : Nat) :
    (runOp (updateDeck db ctx i now) db).sessions = db.sessions := by
  unfold updateDeck
  repeat' split
  all_goals rfl

/-- listDecks is read-only. -/
theorem listDecks_keeps_state (db : DB) (ctx : Option String) (i : Option Bool) :
    runOp (listDecks db ctx i) db = db := by
  unfold listDecks
  repeat' split
  all_goals rfl

/-- upsertCard never touches the sessions table. -/
theorem upsertCard_keeps_sessions (db : DB) (ctx : Option String)
    (i : UpsertCardInput) :
    (runOp (upsertCard db ctx i) db).sessions = db.sessions := by
  unfold upsertCard
  repeat' split
  all_goals try rfl
  all_goals
    cases hf : db.cards.find? (fun c => c.id == i.id.getD 0 && c.deckId == i.deckId) <;>
      simp [hf, runOp]

/-- listCards is read-only. -/
theorem listCards_keeps_state (db : DB) (ctx : Option String) (i : ListCardsInput) :
    runOp (listCards db ctx i) db = db := by
  unfold listCards
  repeat' split
  all_goals rfl

/-- logReview never touches the sessions table. -/
theorem logReview_keeps_sessions (db : DB) (ctx : Option String)
    (i : LogReviewInput) (now : Nat) :
    (runOp (logReview db ctx i now) db).sessions = db.sessions := by
  unfold logReview
  repeat' split
  all_goals rfl

/-- startStudySession either fails (sessions unchanged) or appends exactly
the caller's fresh session at the end. -/
theorem startStudySession_appends (db : DB) (ctx : Option String) (dk now : Nat) :
    (runOp (startStudySession db ctx dk now) db).sessions = db.sessions
    ∨ ∃ u, ctx = some u ∧ (runOp (startStudySession db ctx dk now) db).sessions
        = db.sessions ++ [newSession dk u db.nextSessionId now] := by
  cases ctx with
  | none => exact Or.inl rfl
  | some u =>
      cases hg : getDeckForUser db dk u with
      | error e =>
          refine Or.inl ?_
          simp [startStudySession, requireUser, hg, runOp]
      | ok deck =>
          refine Or.inr ⟨u, rfl, ?_⟩
          simp [startStudySession, requireUser, hg, runOp]

/-- completeStudySession rewrites session rows in place: every session in
the post-state descends from a stored one with the same userId. -/
theorem completeStudySession_userId_preserved (db : DB) (ctx : Option String)
    (i : CompleteSessionInput) (now : Nat) :
    ∀ s, s ∈ (runOp (completeStudySession db ctx i now) db).sessions →
      ∃ s0, s0 ∈ db.sessions ∧ s.userId = s0.userId := by
  intro s hs
  cases ctx with
  | none => exact ⟨s, hs, rfl⟩
  | some u =>
      cases hf : db.sessions.find? (fun s0 => s0.id == i.id && s0.userId == some u) with
      | none =>
          rw [show runOp (completeStudySession db (some u) i now) db = db by
            simp [completeStudySession, requireUser, hf, runOp]] at hs
          exact ⟨s, hs, rfl⟩
      | some session =>
          rw [show runOp (completeStudySession db (some u) i now) db
              = { db with sessions := db.sessions.map (fun s0 =>
                    if s0.id == i.id then applySessionComplete i now session s0 else s0) } by
            simp [completeStudySession, requireUser, hf, runOp]] at hs
          simp only [List.mem_map] at hs
          obtain ⟨s0, hs0, he⟩ := hs
          refine ⟨s0, hs0, ?_⟩
          rw [← he]
          cases hb : s0.id == i.id with
      | false => simp [hb]
      | true => simp [hb, applySessionComplete]

/-- A completion request with every optional field omitted. -/
def cinpN : CompleteSessionInput :=
  { id := 1, totalCardsSeen := none, correctCount := none, wrongCount := none,
    summary := none, completedAt := none }

/-- Alice's session after being completed at time 10. -/
def sessA10 : StudySession := { sessA with completedAt := some 10 }

/-- Alice's session after being completed again at time 20. -/
def sessA20 : StudySession := { sessA with completedAt := some 20 }

/-- Counterexample to C9 as stated: after completeStudySession succeeds on
session 1 (completedAt becomes 10), a second completeStudySession call
succeeds again and mutates the same session's completedAt to 20 — the
transition from null is not once-only and the session is not mutated
exactly once. -/
theorem completeStudySession_twice_cex :
    completeStudySession dbS (some "alice") cinpN 10
      = Except.ok ({ dbS with sessions := [sessA10] }, sessA10)
    ∧ completeStudySession { dbS with sessions := [sessA10] } (some "alice") cinpN 20
      = Except.ok ({ dbS with sessions := [sessA20] }, sessA20)
    ∧ sessA10.completedAt ≠ sessA20.completedAt :=
  ⟨rfl, rfl, by decide⟩

/-- C9 (amended): completeStudySession is the only operation that mutates
stored StudySession rows — every other operation of the API preserves the
stored sessions as a prefix (startStudySession only appends); the code
does not prevent a second completion, which overwrites completedAt,
counters, and summary again. -/
theorem sessions_mutated_only_by_complete (db : DB) (ctx : Option String) (now : Nat)
    (a : Action) (h : ∀ i, a ≠ Action.completeStudySession i) :
    ∃ tail, (applyAction db ctx now a).sessions = db.sessions ++ tail := by
  cases a with
  | completeStudySession i => exact absurd rfl (h i)
  | createDeck i =>
      exact ⟨[], by simp [applyAction, createDeck_keeps_sessions]⟩
  | updateDeck i =>
      exact ⟨[], by simp [applyAction, updateDeck_keeps_sessions]⟩
  | listDecks i =>
      exact ⟨[], by simp [applyAction, listDecks_keeps_state]⟩
  | upsertCard i =>
      exact ⟨[], by simp [applyAction, upsertCard_keeps_sessions]⟩
  | listCards i =>
      exact ⟨[], by simp [applyAction, listCards_keeps_state]⟩
  | logReview i =>
      exact ⟨[], by simp [applyAction, logReview_keeps_sessions]⟩
  | startStudySession dk =>
      rcases startStudySession_appends db ctx dk now with hs | ⟨u, _, hs⟩
      · exact ⟨[], by simp [applyAction, hs]⟩
      · exact ⟨[newSession dk u db.nextSessionId now], by simp [applyAction, hs]⟩

/-- Witness for C9 (amended): a deck update on the store with alice's
open session leaves the sessions table a prefix of itself. -/
theorem sessions_mutated_only_by_complete_witness :
    ∃ tail, (applyAction dbS (some "alice") 9 (Action.updateDeck updW)).sessions
      = dbS.sessions ++ tail :=
  sessions_mutated_only_by_complete dbS (some "alice") 9 (Action.updateDeck updW)
    (fun _ h => Action.noConfusion h)

/-- C10: every session created through startStudySession carries the
authenticated caller as its userId, and — although the schema allows an
anonymous session — no operation of the API can put a session with a null
userId into a store that had none. -/
theorem startStudySession_sets_user (db : DB) (ctx : Option String) (now : Nat) :
    (∀ u dk db2 s, startStudySession db (some u) dk now = Except.ok (db2, s) →
        s.userId = some u ∧ db2.sessions = db.sessions ++ [s])
    ∧ (∀ a, (∀ s, s ∈ db.sessions → s.userId ≠ none) →
        ∀ s, s ∈ (applyAction db ctx now a).sessions → s.userId ≠ none) := by
  constructor
  · intro u dk db2 s h
    unfold startStudySession at h
    simp only [requireUser] at h
    cases hg : getDeckForUser db dk u with
    | error e => rw [hg] at h; simp at h
    | ok deck =>
        rw [hg] at h
        simp only [Except.ok.injEq, Prod.mk.injEq] at h
        obtain ⟨hdb, hs⟩ := h
        subst hs
        subst hdb
        exact ⟨rfl, rfl⟩
  · intro a hinv s hs
    cases a with
    | createDeck i =>
        simp only [applyAction, createDeck_keeps_sessions] at hs
        exact hinv s hs
    | updateDeck i =>
        simp only [applyAction, updateDeck_keeps_sessions] at hs
        exact hinv s hs
    | listDecks i =>
        simp only [applyAction, listDecks_keeps_state] at hs
        exact hinv s hs
    | upsertCard i =>
        simp only [applyAction, upsertCard_keeps_sessions] at hs
        exact hinv s hs
    | listCards i =>
        simp only [applyAction, listCards_keeps_state] at hs
        exact hinv s hs
    | logReview i =>
        simp only [applyAction, logReview_keeps_sessions] at hs
        exact hinv s hs
    | startStudySession dk =>
        rcases startStudySession_appends db ctx dk now with he | ⟨u, _, he⟩
        · simp only [applyAction] at hs
          rw [he] at hs
          exact hinv s hs
        · simp only [applyAction] at hs
          rw [he] at hs
          rcases List.mem_append.mp hs with hl | hr
          · exact hinv s hl
          · have : s = newSession dk u db.nextSessionId now := by simpa using hr
            rw [this]
            simp [newSession]
    | completeStudySession i =>
        simp only [applyAction] at hs
        obtain ⟨s0, hs0, he⟩ := completeStudySession_userId_preserved db ctx i now s hs
        rw [he]
        exact hinv s0 hs0

/-- Witness for C10: starting a session on alice's deck yields a session
whose userId is alice, appended to the sessions table. -/
theorem startStudySession_sets_user_witness :
    (newSession 1 "alice" 1 3).userId = some "alice"
    ∧ ({ db0 with sessions := [newSession 1 "alice" 1 3], nextSessionId := 2 } : DB).sessions
        = db0.sessions ++ [newSession 1 "alice" 1 3] :=
  (startStudySession_sets_user db0 (some "alice") 3).1 "alice" 1
    { db0 with sessions := [newSession 1 "alice" 1 3], nextSessionId := 2 }
    (newSession 1 "alice" 1 3) rfl

end Flashcards
